import Mathlib

/-!
Verification of the resume-analyzer upload form (frontend/src/App.js).

The component keeps four pieces of React state (selectedFile, analysisResult,
loading, error), an upload handler split here at its await point into
`uploadStart` (the synchronous part up to issuing the POST) and
`uploadComplete` (the then/catch/finally part), and a conditional renderer
projected here as pure functions from the response payload to display blocks.
Absent JavaScript fields are modelled with `Option`; reading a property of an
undefined object is modelled as an `Except.error` in the renderer.
-/

/-- An opaque file handle: the user-chosen binary. -/
structure File where
  name : String
  bytes : List Nat
deriving Repr, DecidableEq

/-- The outbound HTTP request built by handleUpload (axios.post call). -/
structure HttpRequest where
  method : String
  url : String
  contentType : String
  formData : List (String × File)
deriving Repr, DecidableEq

/-- The three section-presence flags (analysis.key_sections). -/
structure KeySections where
  education_present : Bool
  experience_present : Bool
  skills_present : Bool
deriving Repr, DecidableEq

/-- The analysis object; key_sections may be absent in a malformed response. -/
structure Analysis where
  key_sections : Option KeySections
deriving Repr, DecidableEq

/-- One improvement suggestion entry. -/
structure Suggestion where
  suggestion : String
deriving Repr, DecidableEq

/-- The response payload, all three top-level fields optional. -/
structure AnalysisResult where
  extracted_text : Option String
  analysis : Option Analysis
  improvement_suggestions : Option (List Suggestion)
deriving Repr, DecidableEq

/-- The component state: the four useState hooks of App. -/
structure AppState where
  selectedFile : Option File
  analysisResult : Option AnalysisResult
  loading : Bool
  error : Option String
deriving Repr, DecidableEq

/-- Outcome of the awaited POST: parsed JSON body, or a network/non-2xx error. -/
inductive RequestOutcome where
  | success (data : AnalysisResult)
  | failure
deriving Repr, DecidableEq

/-- handleFileChange: stores event.target.files[0] (undefined when the list is
empty) into selectedFile, touching nothing else. -/
def handleFileChange (s : AppState) (files : List File) : AppState :=
  { s with selectedFile := files.head? }

/-- The POST request handleUpload builds: fixed URL, multipart content type,
one form part named "file" holding the selected file. -/
def mkRequest (f : File) : HttpRequest :=
  { method := "POST"
    url := "http://localhost:5000/analyze/"
    contentType := "multipart/form-data"
    formData := [("file", f)] }

/-- The synchronous part of handleUpload: with no file selected it sets the
error and returns without touching loading or the result and without issuing a
request; otherwise it sets loading, clears error and result, and issues
exactly one POST. -/
def uploadStart (s : AppState) : AppState × List HttpRequest :=
  match s.selectedFile with
  | none => ({ s with error := some "Please select a resume file." }, [])
  | some f =>
      ({ s with loading := true, error := none, analysisResult := none },
       [mkRequest f])

/-- The continuation of handleUpload after the await: on success the body is
stored as the result; on failure the fixed message is stored as the error; the
finally block clears loading in both cases. No further request is issued. -/
def uploadComplete (s : AppState) (o : RequestOutcome) :
    AppState × List HttpRequest :=
  match o with
  | RequestOutcome.success data =>
      ({ s with analysisResult := some data, loading := false }, [])
  | RequestOutcome.failure =>
      ({ s with
          error := some "Failed to upload and analyze the resume. Please try again.",
          loading := false }, [])

/-- The submit button carries disabled=\x7bloading\x7d. -/
def submitDisabled (s : AppState) : Bool :=
  s.loading

/-- A rendered display block of the results section. -/
inductive Block where
  | extractedText (text : String)
  | keySections (lines : List String)
  | suggestions (items : List String)
deriving Repr, DecidableEq

/-- Rendering of a boolean flag as the Yes/No text of the flag lines. -/
def yesNo (b : Bool) : String :=
  if b then "Yes" else "No"

/-- The extracted-text block: guarded by the truthiness of extracted_text, so
an absent field and the empty string both suppress it. -/
def renderExtracted (r : AnalysisResult) : List Block :=
  match r.extracted_text with
  | none => []
  | some s => if s.isEmpty then [] else [Block.extractedText s]

/-- The key-sections block: guarded only by the truthiness of analysis; the
three flag reads then dereference analysis.key_sections unconditionally, so an
absent key_sections raises a TypeError during render. -/
def renderKeySections (r : AnalysisResult) : Except String (List Block) :=
  match r.analysis with
  | none => Except.ok []
  | some a =>
      match a.key_sections with
      | none =>
          Except.error "TypeError: cannot read properties of undefined"
      | some ks =>
          Except.ok [Block.keySections
            ["Education Present: " ++ yesNo ks.education_present,
             "Experience Present: " ++ yesNo ks.experience_present,
             "Skills Present: " ++ yesNo ks.skills_present]]

/-- The suggestions block: guarded by presence and a positive length; each
entry renders its suggestion text in list order. -/
def renderSuggestions (r : AnalysisResult) : List Block :=
  match r.improvement_suggestions with
  | none => []
  | some l =>
      if l.length > 0 then
        [Block.suggestions (l.map (fun x => x.suggestion))]
      else []

/-- The whole results section for a present analysisResult: the three blocks
in document order, or the render-time exception if the key-sections block
throws. -/
def renderResults (r : AnalysisResult) : Except String (List Block) :=
  match renderKeySections r with
  | Except.error e => Except.error e
  | Except.ok ks =>
      Except.ok (renderExtracted r ++ ks ++ renderSuggestions r)

/-- Whether rendering the results section completes without throwing. -/
def renderSucceeds (r : AnalysisResult) : Bool :=
  match renderResults r with
  | Except.ok _ => true
  | Except.error _ => false

/-- The component together with its in-flight network requests. -/
structure World where
  state : AppState
  inflight : List HttpRequest
deriving Repr, DecidableEq

/-- UI events: choosing a file, clicking the submit button, and resolution of
an in-flight request. -/
inductive Event where
  | selectFile (files : List File)
  | clickUpload
  | complete (o : RequestOutcome)

/-- The initial component state: all hooks at their useState defaults. -/
def initState : AppState :=
  { selectedFile := none, analysisResult := none, loading := false,
    error := none }

/-- The initial world: initial state, nothing in flight. -/
def initWorld : World :=
  { state := initState, inflight := [] }

/-- One UI transition. A click on the disabled button is ignored; an enabled
click runs uploadStart and adds its request to the in-flight list; a
completion event removes the in-flight request and runs uploadComplete. -/
def step (w : World) (e : Event) : World :=
  match e with
  | Event.selectFile files => { w with state := handleFileChange w.state files }
  | Event.clickUpload =>
      if submitDisabled w.state then w
      else
        { state := (uploadStart w.state).1,
          inflight := w.inflight ++ (uploadStart w.state).2 }
  | Event.complete o =>
      match w.inflight with
      | [] => w
      | _ :: rest =>
          { state := (uploadComplete w.state o).1, inflight := rest }

/-- The worlds reachable from the initial one by UI events. -/
inductive Reachable : World → Prop where
  | init : Reachable initWorld
  | next {w : World} (e : Event) : Reachable w → Reachable (step w e)

/-- The key-sections object of the spec acceptance test response. -/
def sampleKeySections : KeySections :=
  { education_present := true, experience_present := false,
    skills_present := true }

/-- The concrete response of the spec acceptance test in section 8. -/
def sampleResponse : AnalysisResult :=
  { extracted_text := some "Hello"
    analysis := some { key_sections := some sampleKeySections }
    improvement_suggestions := some [{ suggestion := "Add metrics" }] }

/-- A state with no file selected but a prior result and error still stored. -/
def c5State : AppState :=
  { selectedFile := none
    analysisResult := some sampleResponse
    loading := false
    error := some "old error" }

/-- A malformed response: analysis present but key_sections absent. -/
def c9BadResponse : AnalysisResult :=
  { extracted_text := none
    analysis := some { key_sections := none }
    improvement_suggestions := none }

/-- A concrete one-byte file used to instantiate universally quantified
theorems. -/
def sampleFile : File :=
  { name := "cv.pdf", bytes := [37, 80, 68, 70] }

/-- In every reachable world the in-flight request count matches the loading
flag exactly. -/
theorem inflight_matches_loading {w : World} (h : Reachable w) :
    w.inflight.length = (if w.state.loading then 1 else 0) := by
  induction h with
  | init => rfl
  | @next w' e _ ih =>
      cases e with
      | selectFile files =>
          simpa [step, handleFileChange] using ih
      | clickUpload =>
          by_cases hl : w'.state.loading
          · simp [step, submitDisabled, hl, ih]
          · cases hsel : w'.state.selectedFile with
            | none => simp [step, submitDisabled, hl, uploadStart, hsel, ih]
            | some f => simp [step, submitDisabled, hl, uploadStart, hsel, ih]
      | complete o =>
          cases hin : w'.inflight with
          | nil =>
              rw [hin] at ih
              simpa [step, hin] using ih
          | cons r rest =>
              rw [hin] at ih
              by_cases hl : w'.state.loading
              · rw [hl] at ih
                cases o <;>
                  simp_all [step, hin, uploadComplete]
              · simp [hl] at ih

/-- C1: in every state with no file selected, submit issues no network request
and sets error to exactly "Please select a resume file.". -/
theorem c1_no_file_no_request (s : AppState) (h : s.selectedFile = none) :
    (uploadStart s).2 = [] ∧
    (uploadStart s).1.error = some "Please select a resume file." := by
  simp [uploadStart, h]

/-- C1 witness at the initial state. -/
theorem c1_no_file_no_request_witness :
    (uploadStart initState).2 = [] ∧
    (uploadStart initState).1.error = some "Please select a resume file." :=
  c1_no_file_no_request initState rfl

/-- C2: in every state with a file selected, submit issues exactly one POST to
http://localhost:5000/analyze/ whose multipart body has exactly one part named
"file" carrying the selected file. -/
theorem c2_single_post (s : AppState) (f : File) (h : s.selectedFile = some f) :
    (uploadStart s).2 =
      [{ method := "POST"
         url := "http://localhost:5000/analyze/"
         contentType := "multipart/form-data"
         formData := [("file", f)] }] := by
  simp [uploadStart, mkRequest, h]

/-- C2 witness at a concrete state holding a concrete file. -/
theorem c2_single_post_witness :
    (uploadStart { initState with
        selectedFile := some { name := "cv.pdf", bytes := [37, 80, 68, 70] } }).2 =
      [{ method := "POST"
         url := "http://localhost:5000/analyze/"
         contentType := "multipart/form-data"
         formData := [("file", { name := "cv.pdf", bytes := [37, 80, 68, 70] })] }] :=
  c2_single_post _ { name := "cv.pdf", bytes := [37, 80, 68, 70] } rfl

/-- C3: after a submitted request fails, loading is false, error is exactly
the fixed failure message, the result is null, and no further request is
issued. -/
theorem c3_failure_state (s : AppState) (f : File) (h : s.selectedFile = some f) :
    (uploadComplete (uploadStart s).1 RequestOutcome.failure).1.loading = false ∧
    (uploadComplete (uploadStart s).1 RequestOutcome.failure).1.error =
      some "Failed to upload and analyze the resume. Please try again." ∧
    (uploadComplete (uploadStart s).1 RequestOutcome.failure).1.analysisResult = none ∧
    (uploadComplete (uploadStart s).1 RequestOutcome.failure).2 = [] := by
  simp [uploadStart, uploadComplete, h]

/-- C3 witness at a concrete state holding a concrete file. -/
theorem c3_failure_state_witness :
    (uploadComplete (uploadStart { initState with
        selectedFile := some { name := "cv.pdf", bytes := [1] } }).1
      RequestOutcome.failure).1.loading = false ∧
    (uploadComplete (uploadStart { initState with
        selectedFile := some { name := "cv.pdf", bytes := [1] } }).1
      RequestOutcome.failure).1.error =
      some "Failed to upload and analyze the resume. Please try again." ∧
    (uploadComplete (uploadStart { initState with
        selectedFile := some { name := "cv.pdf", bytes := [1] } }).1
      RequestOutcome.failure).1.analysisResult = none ∧
    (uploadComplete (uploadStart { initState with
        selectedFile := some { name := "cv.pdf", bytes := [1] } }).1
      RequestOutcome.failure).2 = [] :=
  c3_failure_state _ { name := "cv.pdf", bytes := [1] } rfl

/-- C4: on the acceptance-test response the renderer yields the extracted-text
block for "Hello", the three key-section lines Yes/No/Yes, and exactly one
suggestion item "Add metrics". -/
theorem c4_sample_render :
    renderResults sampleResponse = Except.ok
      [Block.extractedText "Hello",
       Block.keySections
         ["Education Present: Yes", "Experience Present: No",
          "Skills Present: Yes"],
       Block.suggestions ["Add metrics"]] := by
  rfl

/-- C5 counterexample: submitting at a state with no file selected but a prior
result and error stored leaves the prior result in place and sets (not clears)
error, so the claim that every submit attempt clears both is false. -/
theorem c5_no_reset_counterexample :
    (uploadStart c5State).1.analysisResult = some sampleResponse ∧
    (uploadStart c5State).1.analysisResult ≠ none ∧
    (uploadStart c5State).1.error ≠ none :=
  ⟨rfl, Option.some_ne_none _, Option.some_ne_none _⟩

/-- C5 amended: a submit attempt clears the prior error and result only when a
file is selected; with no file selected the prior result is kept and error is
set to the no-file message. -/
theorem c5_reset_only_with_file (s : AppState) :
    (∀ f, s.selectedFile = some f →
      (uploadStart s).1.error = none ∧
      (uploadStart s).1.analysisResult = none) ∧
    (s.selectedFile = none →
      (uploadStart s).1.analysisResult = s.analysisResult ∧
      (uploadStart s).1.error = some "Please select a resume file.") := by
  constructor
  · intro f h
    simp [uploadStart, h]
  · intro h
    simp [uploadStart, h]

/-- C5 witness at a concrete state with a file selected. -/
theorem c5_reset_only_with_file_witness :
    (uploadStart { c5State with selectedFile := some sampleFile }).1.error = none ∧
    (uploadStart { c5State with selectedFile := some sampleFile }).1.analysisResult = none :=
  (c5_reset_only_with_file { c5State with selectedFile := some sampleFile }).1
    sampleFile rfl

/-- C6: the suggestions block is absent when the sequence is absent or empty,
and for a non-empty sequence it is exactly one block listing each entry's
suggestion text in order. -/
theorem c6_suggestions_block (r : AnalysisResult) :
    (r.improvement_suggestions = none → renderSuggestions r = []) ∧
    (r.improvement_suggestions = some [] → renderSuggestions r = []) ∧
    (∀ l, r.improvement_suggestions = some l → l ≠ [] →
      renderSuggestions r = [Block.suggestions (l.map (fun x => x.suggestion))]) := by
  refine ⟨fun h => ?_, fun h => ?_, fun l h hne => ?_⟩
  · simp [renderSuggestions, h]
  · simp [renderSuggestions, h]
  · simp [renderSuggestions, h, List.length_pos_iff_ne_nil.mpr hne]

/-- C6 witness at the acceptance-test response. -/
theorem c6_suggestions_block_witness :
    renderSuggestions sampleResponse = [Block.suggestions ["Add metrics"]] :=
  (c6_suggestions_block sampleResponse).2.2 [{ suggestion := "Add metrics" }]
    rfl (List.cons_ne_nil _ _)

/-- C7: the extracted-text block renders exactly when extracted_text is a
truthy (present and non-empty) string; the defined-but-empty string does not
render. -/
theorem c7_extracted_truthiness (r : AnalysisResult) :
    (r.extracted_text = some "" → renderExtracted r = []) ∧
    (∀ s, r.extracted_text = some s → s ≠ "" →
      renderExtracted r = [Block.extractedText s]) ∧
    (renderExtracted r ≠ [] ↔ ∃ s, r.extracted_text = some s ∧ s ≠ "") := by
  cases hr : r.extracted_text with
  | none => simp [renderExtracted, hr]
  | some s =>
      by_cases hs : s = ""
      · subst hs
        simp [renderExtracted, hr, String.isEmpty_iff]
      · simp [renderExtracted, hr, String.isEmpty_iff, hs]

/-- C7 witness at the acceptance-test response. -/
theorem c7_extracted_truthiness_witness :
    renderExtracted sampleResponse = [Block.extractedText "Hello"] :=
  (c7_extracted_truthiness sampleResponse).2.1 "Hello" rfl (by decide)

/-- C8: in every reachable world the submit control is disabled exactly when
loading, every request completion resets loading to false, and at most one
request is ever in flight. -/
theorem c8_loading_guard (w : World) (o : RequestOutcome) (h : Reachable w) :
    submitDisabled w.state = w.state.loading ∧
    (uploadComplete w.state o).1.loading = false ∧
    w.inflight.length ≤ 1 := by
  refine ⟨rfl, ?_, ?_⟩
  · cases o <;> rfl
  · have hinv := inflight_matches_loading h
    by_cases hl : w.state.loading = true
    · rw [if_pos hl] at hinv
      omega
    · rw [if_neg hl] at hinv
      omega

/-- C8 witness at the initial world. -/
theorem c8_loading_guard_witness :
    submitDisabled initWorld.state = initWorld.state.loading ∧
    (uploadComplete initWorld.state RequestOutcome.failure).1.loading = false ∧
    initWorld.inflight.length ≤ 1 :=
  c8_loading_guard initWorld RequestOutcome.failure Reachable.init

/-- C9: rendering succeeds whenever a present analysis carries key_sections,
and fails whenever analysis is present with key_sections absent. -/
theorem c9_key_sections_partiality (r : AnalysisResult) :
    ((∀ a, r.analysis = some a → a.key_sections ≠ none) →
      renderSucceeds r = true) ∧
    (∀ a, r.analysis = some a → a.key_sections = none →
      renderSucceeds r = false) := by
  constructor
  · intro h
    cases ha : r.analysis with
    | none => simp [renderSucceeds, renderResults, renderKeySections, ha]
    | some a =>
        cases hk : a.key_sections with
        | none => exact absurd hk (h a ha)
        | some ks =>
            simp [renderSucceeds, renderResults, renderKeySections, ha, hk]
  · intro a ha hk
    simp [renderSucceeds, renderResults, renderKeySections, ha, hk]

/-- C9 witness: rendering fails on the malformed response. -/
theorem c9_key_sections_partiality_witness :
    renderSucceeds c9BadResponse = false :=
  (c9_key_sections_partiality c9BadResponse).2 { key_sections := none } rfl rfl

/-- C10: selecting a file replaces only selectedFile and leaves loading, error
and the result untouched, so a previously displayed error stays displayed. -/
theorem c10_select_file_frame (s : AppState) (files : List File) :
    (handleFileChange s files).selectedFile = files.head? ∧
    (handleFileChange s files).loading = s.loading ∧
    (handleFileChange s files).error = s.error ∧
    (handleFileChange s files).analysisResult = s.analysisResult :=
  ⟨rfl, rfl, rfl, rfl⟩
